import Mathlib

/-!
Verification development for a small distributed file-storage service
(coordinator `Smain`, backend store `Spdf`/`Stext`, and a client), written
in C.  The definitions below are shallow embeddings of the C functions:
pure fragments become Lean functions, socket I/O becomes explicit message
lists, and filesystem state becomes explicit parameters (file contents as
`Option`, directory trees as an inductive type).  Machine integers are
modelled as `Int`/`Nat` with explicit `% 2 ^ 64` where a C conversion to
`size_t` matters.

Node roles:
  * `smain_*` definitions embed the coordinator server (source `Smain.c`).
  * `spdf_*`  definitions embed the backend store server (source `Spdf.c`).
  * `client_*` definitions embed the client (source `client24s.c`).
The protocol constant `BUFFER_SIZE` is 1024 in all three roles.
-/

/-! ## Transfer channel: sized bulk transfer

`send_file` writes a file's bytes to the socket with repeated
`send(socket, buffer, bytes_read, 0)` calls, where each `fread` fills at
most `BUFFER_SIZE = 1024` bytes.  Over a loopback channel every such
write is delivered as one `recv` result, so the wire content is the list
of chunks produced by the sender's read loop. -/

/-- The sender's chunking loop in `send_file`: `fread(buffer, 1, 1024, file)`
until the file is exhausted, each full or final partial buffer sent as one
`send` call.  Bytes are modelled as `Nat`. -/
def chunkify : List Nat → List (List Nat)
  | [] => []
  | b :: bs => ((b :: bs).take 1024) :: chunkify ((b :: bs).drop 1024)
termination_by l => l.length
decreasing_by
  simp only [List.length_drop, List.length_cons]
  omega

/-- Concatenation of the chunks back into a byte stream. -/
def concatAll : List (List Nat) → List Nat
  | [] => []
  | c :: cs => c ++ concatAll cs

/-- The receiver's accumulation loop in `receive_file`:
`while (total_bytes_received < file_size)` perform one `recv` (delivering
the next sender chunk on a loopback channel), add its length to the
running total, and append its bytes to the file being written.  If the
channel has no further chunk while the total is still short, the `recv`
would block or return 0 forever; that case is `none`. -/
def recvLoop (file_size : Nat) : List (List Nat) → Nat → List Nat → Option (List Nat)
  | chunks, total, acc =>
    if file_size ≤ total then some acc
    else
      match chunks with
      | [] => none
      | c :: cs => recvLoop file_size cs (total + c.length) (acc ++ c)

/-- `receive_file` (coordinator, lines 793-851; backend, lines 584-656):
run the accumulation loop from a zero total, then send the terminal
`"ack"` message back to the sender. -/
def receive_file_model (file_size : Nat) (chunks : List (List Nat)) :
    Option (List Nat × List String) :=
  (recvLoop file_size chunks 0 []).map (fun d => (d, ["ack"]))

/-! ## Transfer channel: control exchange

`send_with_acknowledgement` (coordinator lines 1327-1351, client lines
630-654 — the two copies are identical): send the message; on send
failure return 0; `recv` one acknowledgement frame; on a negative `recv`
result return 0; otherwise return `strlen(message)`.  A peer that closed
the connection makes `recv` return 0, which is not negative, so the
function falls through to the success return. -/
def send_with_acknowledgement_ret (sendOk : Bool) (recvRes : Int) (msgLen : Nat) : Int :=
  if sendOk = false then 0
  else if recvRes < 0 then 0
  else (msgLen : Int)

/-- `receive_with_acknowledgement` (coordinator lines 1353-1380, backend
lines 1005-1036): `recv` one frame; on a negative result return 0; send
the acknowledgement text; on send failure return 0; otherwise return the
number of bytes received.  A disconnected peer yields `recvRes = 0`, so
the function returns 0. -/
def receive_with_acknowledgement_ret (recvRes : Int) (ackSendOk : Bool) : Int :=
  if recvRes < 0 then 0
  else if ackSendOk = false then 0
  else recvRes

/-! ## Command protocol: tokenization and dispatch -/

/-- The accumulating loop behind `strtok(cmd_str, " ")`: runs of spaces
separate tokens and contribute no empty fields. -/
def strtokAux : List Char → List Char → List (List Char)
  | [], cur => if cur = [] then [] else [cur.reverse]
  | c :: cs, cur =>
    if c = ' ' then
      if cur = [] then strtokAux cs [] else cur.reverse :: strtokAux cs []
    else strtokAux cs (c :: cur)

/-- `tokenize_command` (identical in all three roles): `strtok(cmd_str, " ")`
repeatedly, collecting tokens.  `strtok` skips runs of the delimiter, so
empty fields never appear. -/
def tokenize_command (s : List Char) : List (List Char) :=
  strtokAux s []

def cmdUfile : List Char := ['u', 'f', 'i', 'l', 'e']

def cmdDfile : List Char := ['d', 'f', 'i', 'l', 'e']

def cmdRmfile : List Char := ['r', 'm', 'f', 'i', 'l', 'e']

def cmdDtar : List Char := ['d', 't', 'a', 'r']

def cmdDisplay : List Char := ['d', 'i', 's', 'p', 'l', 'a', 'y']

/-- The handler a server-side `process_command` transfers control to. -/
inductive Dispatch
  | opUfile
  | opDfile
  | opRmfile
  | opDtar
  | opDisplay
  | invalidReply
deriving DecidableEq

/-- Server-side `process_command` (coordinator lines 419-483, backend
lines 369-431): tokenize, take `commands[0]`, and branch on its value
alone.  The token count returned by `tokenize_command` is never compared
against any arity.  With zero tokens `commands[0]` is an uninitialized
pointer (undefined behavior), modelled as `none`. -/
def process_command_dispatch (tokens : List (List Char)) : Option Dispatch :=
  match tokens with
  | [] => none
  | cmd :: _ =>
    if cmd = cmdUfile then some Dispatch.opUfile
    else if cmd = cmdDfile then some Dispatch.opDfile
    else if cmd = cmdRmfile then some Dispatch.opRmfile
    else if cmd = cmdDtar then some Dispatch.opDtar
    else if cmd = cmdDisplay then some Dispatch.opDisplay
    else some Dispatch.invalidReply

/-! ## Coordinator routing by filename extension

Each of `process_ufile` (lines 485-534), `process_dfile` (lines 536-587)
and `process_rmfile` (lines 589-626) in the coordinator begins with
`strrchr(filename, '.')`; a `NULL` result aborts the handler with `-1`.
Otherwise `.txt` routes the operation to the stext backend connection,
`.pdf` to the spdf backend connection, and any other extension
(notably `.c`) stays on the coordinator's own `./smain` store. -/

/-- `strrchr(s, c)` as the suffix of `s` starting at the last occurrence
of `c`, or `none` when `c` does not occur. -/
def strrchrSuffix (c : Char) : List Char → Option (List Char)
  | [] => none
  | x :: xs =>
    match strrchrSuffix c xs with
    | some r => some r
    | none => if x = c then some (x :: xs) else none

def dotTxt : List Char := ['.', 't', 'x', 't']

def dotPdf : List Char := ['.', 'p', 'd', 'f']

def dotC : List Char := ['.', 'c']

/-- Where an operation on a given filename is executed. -/
inductive RouteResult
  | toSmain
  | toStext
  | toSpdf
  | noExtensionError
deriving DecidableEq

/-- Routing performed by `process_ufile` (coordinator lines 485-534): the
file is always staged locally first, then a `.txt` file is forwarded to
the stext backend and a `.pdf` file to the spdf backend (and the staged
copy deleted); any other extension keeps the file in `./smain`; a
missing extension aborts with `-1` before any storage operation. -/
def smain_ufile_route (filename : List Char) : RouteResult :=
  match strrchrSuffix '.' filename with
  | none => RouteResult.noExtensionError
  | some ext =>
    if ext = dotTxt then RouteResult.toStext
    else if ext = dotPdf then RouteResult.toSpdf
    else RouteResult.toSmain

/-- Routing performed by `process_dfile` (coordinator lines 536-587):
`.txt`/`.pdf` files are fetched from the matching backend into `./smain`
and served from there (then deleted); any other extension is served
directly from `./smain`; a missing extension aborts with `-1`. -/
def smain_dfile_route (filePath : List Char) : RouteResult :=
  match strrchrSuffix '.' filePath with
  | none => RouteResult.noExtensionError
  | some ext =>
    if ext = dotTxt then RouteResult.toStext
    else if ext = dotPdf then RouteResult.toSpdf
    else RouteResult.toSmain

/-- Routing performed by `process_rmfile` (coordinator lines 589-626):
`.txt`/`.pdf` deletions are forwarded to the matching backend via
`remove_file_from_server`; any other extension is removed from
`./smain`; a missing extension aborts with `-1`. -/
def smain_rmfile_route (fileName : List Char) : RouteResult :=
  match strrchrSuffix '.' fileName with
  | none => RouteResult.noExtensionError
  | some ext =>
    if ext = dotTxt then RouteResult.toStext
    else if ext = dotPdf then RouteResult.toSpdf
    else RouteResult.toSmain

/-! ## Not-found sentinel: `-1` declared size -/

/-- The digit-accumulation loop of C `atoi` after the optional sign. -/
def digitsVal : List Char → Nat → Nat
  | [], acc => acc
  | c :: cs, acc =>
    if c.isDigit then digitsVal cs (acc * 10 + (c.toNat - 48)) else acc

/-- C `atoi` on the strings this protocol produces (no leading
whitespace): an optional sign followed by a digit run. -/
def atoi (s : List Char) : Int :=
  match s with
  | '-' :: rest => - (digitsVal rest 0 : Int)
  | '+' :: rest => (digitsVal rest 0 : Int)
  | _ => (digitsVal s 0 : Int)

/-- C conversion of an `int` value to `size_t` (64-bit unsigned): reduce
modulo `2 ^ 64`. -/
def toSizeT (i : Int) : Nat := (i % (2 ^ 64)).toNat

/-- Observable behavior of one `send_file` call (coordinator lines
692-755; the backend copy at lines 524-582 is identical): the size
message sent through the acknowledged exchange, the body chunks written
afterwards, and the return value. -/
structure SendFileTrace where
  controlMsg : String
  bodyChunks : List (List Nat)
  result : Int
deriving DecidableEq

/-- `send_file` with the file's existence made explicit: `fopen` failing
(`none`) sends the sentinel `"-1"` through `send_with_acknowledgement`
and returns `-1` without writing any body bytes; an existing file sends
its length and then its chunks. -/
def send_file_model (fileContent : Option (List Nat)) : SendFileTrace :=
  match fileContent with
  | none => { controlMsg := "-1", bodyChunks := [], result := -1 }
  | some data =>
      { controlMsg := toString data.length
        bodyChunks := chunkify data
        result := 1 }

/-- The client's `download_file` (lines 409-491) after receiving the
declared size string: `size_t file_size = atoi(response)`; the test
`file_size == -1` compares against `(size_t)(-1)` by the usual C
conversions.  `none` means the not-found branch: print and return `-1`
with no body read; `some n` means the body loop runs until `n` bytes
accumulate. -/
def client_download_bodyReads (sizeStr : List Char) : Option Nat :=
  let file_size := toSizeT (atoi sizeStr)
  if file_size = toSizeT (-1) then none
  else some file_size

/-- The coordinator's `receive_file_from_server` (lines 853-912) after
receiving the declared size string from a backend: `int file_size =
atoi(...)`; if it equals `-1` the function returns `-1` before any body
read (`none`); otherwise the body is received (`some`). -/
def smain_backend_fetch_check (sizeStr : List Char) : Option Int :=
  let file_size := atoi sizeStr
  if file_size = -1 then none
  else some file_size

/-! ## Directory listing (`display`) -/

/-- One entry of a directory as seen by `readdir`: a regular file, a
subdirectory whose own `opendir` succeeds (with its entries), or a
subdirectory whose `opendir` fails. -/
inductive FsEntry
  | fileE (name : List Char)
  | dirE (name : List Char) (sub : List FsEntry)
  | dirFail (name : List Char)

/-- `strrchr(p, '/')` skipping the slash itself, as used to extract a
file name from a relative path; a path with no slash is its own name. -/
def basenameOf (p : List Char) : List Char :=
  match strrchrSuffix '/' p with
  | some (_ :: rest) => rest
  | some [] => []
  | none => p

mutual
/-- One step of `traverse_directory` (coordinator lines 1243-1304,
backend lines 894-956) on a single `readdir` entry: skip `"."` and
`".."`; recurse into a directory (a subdirectory whose `opendir` fails
contributes nothing — `perror` and return); for a regular file append
`"<name> - <path relative to root>\n"`. -/
def traverse_entry (root : List Char) (dirPath : List Char) : FsEntry → List Char
  | FsEntry.fileE name =>
    if name = ['.'] ∨ name = ['.', '.'] then []
    else
      let path := dirPath ++ '/' :: name
      let file_path := path.drop root.length
      basenameOf file_path ++ [' ', '-', ' '] ++ file_path ++ ['\n']
  | FsEntry.dirE name sub =>
    if name = ['.'] ∨ name = ['.', '.'] then []
    else traverse_entries root (dirPath ++ '/' :: name) sub
  | FsEntry.dirFail name =>
    if name = ['.'] ∨ name = ['.', '.'] then []
    else []

/-- The `readdir` loop of `traverse_directory` over a directory's
entries, appending each entry's contribution in order. -/
def traverse_entries (root : List Char) (dirPath : List Char) : List FsEntry → List Char
  | [] => []
  | e :: rest => traverse_entry root dirPath e ++ traverse_entries root dirPath rest
end

/-- Backend `display_files` (lines 668-730) with the top-level `opendir`
result made explicit: a failed open leaves `file_paths` empty (the walk
just returns); then if the collected string is empty the declared size
`"0"` is sent through the acknowledged exchange and the function returns
`-1`; otherwise the size and the content are sent and it returns `1`.
The call is `traverse_directory(dir_path, dir_path, file_paths)`, so the
walk's root is the listed directory itself. -/
def spdf_display_files_outcome (dirOpen : Option (List FsEntry)) (dirPath : List Char) :
    String × Int :=
  let file_paths : List Char :=
    match dirOpen with
    | none => []
    | some entries => traverse_entries dirPath dirPath entries
  if file_paths.length = 0 then ("0", -1)
  else (toString file_paths.length, 1)

/-- Coordinator `display_files` (lines 962-1039): the combined listing
is the local walk's string, then the spdf backend's listing, then the
stext backend's listing.  An empty combination sends declared size `"0"`
and returns `-1`; otherwise the size and content are sent and it
returns `1`. -/
def smain_display_files_outcome (localList pdfList txtList : String) : String × Int :=
  let file_paths := localList ++ pdfList ++ txtList
  if file_paths.length = 0 then ("0", -1)
  else (toString file_paths.length, 1)

/-- The reply `process_command` (coordinator lines 467-476) sends for a
`display` command, keyed on `process_display`'s return value. -/
def smain_display_reply (r : Int) : String :=
  if r = 1 then "File paths saved as file" else "Failed to get files"

/-- The client's `display_files` (lines 515-605) after receiving the
declared size string: `size_t file_size = atoi(response)`; a zero size
prints `"Directory does not exist"` and returns `-1` without reading a
body; otherwise the body loop runs (modelled as result `0`). -/
def client_display_on_size (sizeStr : List Char) : Int × String :=
  let file_size := toSizeT (atoi sizeStr)
  if file_size = 0 then (-1, "Directory does not exist")
  else (0, "")

/-! ## Upload result propagation (`ufile`) -/

/-- Return value of `receive_file` (backend lines 584-656) keyed on the
two filesystem failure points the spec names: `create_directories`
failing or `fopen(file_path, "wb")` failing both return `-1`; the
success path returns `0`. -/
def receive_file_ret (dirOk : Bool) (fileOk : Bool) : Int :=
  if dirOk = false then -1
  else if fileOk = false then -1
  else 0

/-- Backend `process_ufile` (lines 433-451): it calls
`receive_file(socket, destination_path, filename, file_size)` and
discards the returned value, then ends with `return 1` unconditionally. -/
def spdf_process_ufile_ret (dirOk fileOk : Bool) : Int :=
  let _ignored := receive_file_ret dirOk fileOk
  1

/-- The reply `process_command` (backend lines 377-384) sends for a
`ufile` command, keyed on `process_ufile`'s return value. -/
def spdf_ufile_reply (r : Int) : String :=
  if r = 1 then "File received by server" else "Failed to receive file"

/-! ## Archive coordination (`dtar`) -/

/-- The backend node roles the coordinator holds connections to. -/
inductive BackendRole
  | stext
  | spdf
deriving DecidableEq

/-- One observable step of the archive coordination. -/
inductive DtarAction
  | signalBackend (b : BackendRole) (msg : String)
  | recvBackendReply (b : BackendRole)
  | sleepSettle
  | createLocalTar (tarName : String) (src : String)
  | streamTarToClient (path : String)
deriving DecidableEq

/-- Whether an action transmits archive bytes to the client. -/
def isClientStream : DtarAction → Bool
  | DtarAction.streamTarToClient _ => true
  | _ => false

/-- Coordinator `process_dtar` (lines 641-690) on the success path: for
`txt`/`pdf` send the bare `"dtar"` signal to the matching backend
connection via `send_with_acknowledgement`, then `recv` the backend's
reply; for `c` build `./tar/c.tar` locally from `./smain` via
`create_tar`; in every case `sleep(1)` and then `send_tar(socket,
"./tar/<type>.tar")` streams the archive to the client over the client's
own socket. -/
def smain_process_dtar (fileType : String) : List DtarAction :=
  (if fileType = "txt" then
    [DtarAction.signalBackend BackendRole.stext "dtar",
     DtarAction.recvBackendReply BackendRole.stext]
  else if fileType = "pdf" then
    [DtarAction.signalBackend BackendRole.spdf "dtar",
     DtarAction.recvBackendReply BackendRole.spdf]
  else if fileType = "c" then
    [DtarAction.createLocalTar "./tar/c.tar" "./smain"]
  else []) ++
  [DtarAction.sleepSettle,
   DtarAction.streamTarToClient ("./tar/" ++ fileType ++ ".tar")]

/-- Backend `process_dtar` (lines 504-522): build `./tar/pdf.tar` from
the backend's own `./spdf` namespace and return; the backend's only
outgoing message is the short reply to the coordinator sent by
`process_command`.  No archive bytes are ever streamed to a client. -/
def spdf_process_dtar_actions : List DtarAction :=
  [DtarAction.createLocalTar "./tar/pdf.tar" "./spdf"]

/-! ## Session loop termination -/

/-- The loop-exit test in the coordinator's `prcclient` (lines 351-393):
the per-connection command loop breaks only when
`receive_with_acknowledgement` returns a negative value. -/
def smain_prcclient_breaks (bytesReceived : Int) : Bool :=
  decide (bytesReceived < 0)

/-- The loop-exit tests in the backend's `prcclient` (lines 335-367):
it breaks on a negative result and also breaks (printing the disconnect
message) when the result is `0`. -/
def spdf_prcclient_breaks (bytesReceived : Int) : Bool :=
  decide (bytesReceived < 0) || decide (bytesReceived = 0)

/-! ## C1 proof: sized-transfer round trip -/

theorem concatAll_length_eq (cs : List (List Nat)) :
    (concatAll cs).length = (cs.map List.length).sum := by
  induction cs with
  | nil => simp [concatAll]
  | cons c cs ih => simp [concatAll, ih]

theorem recvLoop_consume (chunks : List (List Nat))
    (hne : ∀ c ∈ chunks, c ≠ []) (total : Nat) (acc : List Nat) :
    recvLoop (total + (concatAll chunks).length) chunks total acc =
      some (acc ++ concatAll chunks) := by
  induction chunks generalizing total acc with
  | nil =>
    simp [recvLoop, concatAll]
  | cons c cs ih =>
    have hc : c ≠ [] := hne c (List.mem_cons_self c cs)
    have hclen : 0 < c.length := List.length_pos.mpr hc
    rw [recvLoop]
    have hlt : ¬ (total + (concatAll (c :: cs)).length ≤ total) := by
      simp only [concatAll, List.length_append]
      omega
    rw [if_neg hlt]
    have hrest : ∀ d ∈ cs, d ≠ [] := fun d hd => hne d (List.mem_cons_of_mem c hd)
    have harith :
        total + (concatAll (c :: cs)).length =
          (total + c.length) + (concatAll cs).length := by
      simp only [concatAll, List.length_append]
      omega
    rw [harith, ih hrest (total + c.length) (acc ++ c)]
    simp [concatAll]

theorem chunkify_concatAll (l : List Nat) : concatAll (chunkify l) = l := by
  generalize hn : l.length = n
  induction n using Nat.strong_induction_on generalizing l with
  | _ n ih =>
    match l, hn with
    | [], _ => simp [chunkify, concatAll]
    | b :: bs, hn =>
      rw [chunkify, concatAll]
      have hlen1 : (b :: bs).length = bs.length + 1 := by simp
      rw [hlen1] at hn
      have hdrop : ((b :: bs).drop 1024).length < n := by
        rw [List.length_drop, hlen1]
        omega
      rw [ih ((b :: bs).drop 1024).length hdrop ((b :: bs).drop 1024) rfl]
      exact List.take_append_drop 1024 (b :: bs)

theorem chunkify_ne_nil (l : List Nat) : ∀ c ∈ chunkify l, c ≠ [] := by
  generalize hn : l.length = n
  induction n using Nat.strong_induction_on generalizing l with
  | _ n ih =>
    match l, hn with
    | [], _ => simp [chunkify]
    | b :: bs, hn =>
      rw [chunkify]
      intro c hc
      rcases List.mem_cons.mp hc with h | h
      · subst h
        simp
      · have hlen1 : (b :: bs).length = bs.length + 1 := by simp
        rw [hlen1] at hn
        have hdrop : ((b :: bs).drop 1024).length < n := by
          rw [List.length_drop, hlen1]
          omega
        exact ih ((b :: bs).drop 1024).length hdrop ((b :: bs).drop 1024) rfl c h

/-- C1: Sized-transfer round-trip.  For every byte sequence `B` with
declared length `L = len(B)`, the receiver loop of `receive_file`
(repeated reads accumulated until the running total reaches at least
`L`, then the terminal `"ack"`) run against the sender loop of
`send_file` (write `B` in chunks of at most `BUFFER_SIZE = 1024`) over a
loopback channel reconstructs exactly `B`. -/
theorem sized_transfer_roundtrip (B : List Nat) :
    receive_file_model B.length (chunkify B) = some (B, ["ack"]) := by
  unfold receive_file_model
  have hlen : B.length = 0 + (concatAll (chunkify B)).length := by
    rw [chunkify_concatAll]
    omega
  rw [hlen, recvLoop_consume (chunkify B) (chunkify_ne_nil B) 0 []]
  simp [chunkify_concatAll]

/-! ## C2: routing by extension -/

/-- C2: Routing by filename extension is a total, deterministic function
of the extension alone: for every filename, a `.txt` extension routes
upload, download and delete to the stext backend, `.pdf` to the spdf
backend, `.c` to the coordinator's local `./smain` store, and a name
with no extension resolves to the explicit error return, not any default
route. -/
theorem routing_by_extension (name : List Char) :
    (strrchrSuffix '.' name = some dotTxt →
      smain_ufile_route name = RouteResult.toStext ∧
      smain_dfile_route name = RouteResult.toStext ∧
      smain_rmfile_route name = RouteResult.toStext) ∧
    (strrchrSuffix '.' name = some dotPdf →
      smain_ufile_route name = RouteResult.toSpdf ∧
      smain_dfile_route name = RouteResult.toSpdf ∧
      smain_rmfile_route name = RouteResult.toSpdf) ∧
    (strrchrSuffix '.' name = some dotC →
      smain_ufile_route name = RouteResult.toSmain ∧
      smain_dfile_route name = RouteResult.toSmain ∧
      smain_rmfile_route name = RouteResult.toSmain) ∧
    (strrchrSuffix '.' name = none →
      smain_ufile_route name = RouteResult.noExtensionError ∧
      smain_dfile_route name = RouteResult.noExtensionError ∧
      smain_rmfile_route name = RouteResult.noExtensionError) := by
  refine ⟨?_, ?_, ?_, ?_⟩ <;> intro h <;>
    simp [smain_ufile_route, smain_dfile_route, smain_rmfile_route, h,
      dotTxt, dotPdf, dotC]

/-- Witness for `routing_by_extension` at concrete filenames covering each
extension case. -/
theorem routing_by_extension_witness :
    smain_ufile_route ['a', '.', 't', 'x', 't'] = RouteResult.toStext ∧
    smain_dfile_route ['b', '.', 'p', 'd', 'f'] = RouteResult.toSpdf ∧
    smain_rmfile_route ['m', '.', 'c'] = RouteResult.toSmain ∧
    smain_ufile_route ['n', 'o', 'd', 'o', 't'] = RouteResult.noExtensionError := by
  refine ⟨((routing_by_extension ['a', '.', 't', 'x', 't']).1 (by decide)).1,
    (((routing_by_extension ['b', '.', 'p', 'd', 'f']).2.1) (by decide)).2.1,
    (((routing_by_extension ['m', '.', 'c']).2.2.1) (by decide)).2.2,
    (((routing_by_extension ['n', 'o', 'd', 'o', 't']).2.2.2) (by decide)).1⟩

/-! ## C3: list on an empty Namespace Root -/

/-- C3 counterexample: on an empty combined listing the coordinator's
`display_files` does send declared size `"0"`, but it returns `-1`, so
`process_command` sends the failure reply `"Failed to get files"` (not
the success reply), and the client's `display_files` treats the zero
size as the error `"Directory does not exist"` — the outcome is treated
as a failed operation by both sides, contrary to the claim. -/
theorem display_empty_not_success :
    smain_display_files_outcome "" "" "" = ("0", -1) ∧
    smain_display_reply (smain_display_files_outcome "" "" "").2 =
      "Failed to get files" ∧
    smain_display_reply (smain_display_files_outcome "" "" "").2 ≠
      "File paths saved as file" ∧
    client_display_on_size ['0'] = (-1, "Directory does not exist") := by
  refine ⟨by decide, by decide, by decide, by decide⟩

/-- C3 (amended): a list request whose combined listing is empty is
surfaced to the client as declared size `"0"`, but both sides treat it
as a failure: the server's `display_files` returns `-1` so the command
reply is `"Failed to get files"`, and the client prints
`"Directory does not exist"`. -/
theorem display_empty_amended (localL pdfL txtL : String)
    (h : (localL ++ pdfL ++ txtL).length = 0) :
    smain_display_files_outcome localL pdfL txtL = ("0", -1) ∧
    smain_display_reply (-1) = "Failed to get files" ∧
    client_display_on_size ['0'] = (-1, "Directory does not exist") := by
  refine ⟨?_, by decide, by decide⟩
  simp [smain_display_files_outcome, h]

/-- Witness for `display_empty_amended` at the three empty listings. -/
theorem display_empty_amended_witness :
    smain_display_files_outcome "" "" "" = ("0", -1) ∧
    smain_display_reply (-1) = "Failed to get files" ∧
    client_display_on_size ['0'] = (-1, "Directory does not exist") :=
  display_empty_amended "" "" "" (by decide)

/-! ## C4: argument-count validation before dispatch -/

/-- C4 counterexample: the command string `"ufile"` carries zero
arguments (the `ufile` contract requires name, size and destination),
yet the server's `process_command` dispatches it straight to the
`process_ufile` store-engine handler instead of producing an error
reply: the token count is never compared against any arity. -/
theorem wrong_arity_reaches_store :
    process_command_dispatch (tokenize_command cmdUfile) = some Dispatch.opUfile ∧
    some Dispatch.opUfile ≠ some Dispatch.invalidReply := by
  refine ⟨by decide, by decide⟩

/-- C4 (amended): the servers perform no arity validation: the dispatch
of `process_command` depends only on the first token, so a command with
the wrong number of arguments still reaches the matching store-engine
handler, and only an unknown first token produces the `"Invalid
command"` error reply. -/
theorem dispatch_ignores_arity (rest : List (List Char)) :
    process_command_dispatch (cmdUfile :: rest) = some Dispatch.opUfile ∧
    process_command_dispatch (cmdDfile :: rest) = some Dispatch.opDfile ∧
    process_command_dispatch (cmdRmfile :: rest) = some Dispatch.opRmfile ∧
    process_command_dispatch (cmdDtar :: rest) = some Dispatch.opDtar ∧
    process_command_dispatch (cmdDisplay :: rest) = some Dispatch.opDisplay ∧
    process_command_dispatch (['b', 'o', 'g', 'u', 's'] :: rest) =
      some Dispatch.invalidReply := by
  refine ⟨rfl, ?_, ?_, ?_, ?_, ?_⟩ <;>
    simp [process_command_dispatch, cmdUfile, cmdDfile, cmdRmfile, cmdDtar, cmdDisplay]

/-! ## C5: the `-1` not-found sentinel -/

/-- C5: When the requested file does not exist, `send_file` announces
the sentinel `"-1"` through the acknowledged exchange and returns `-1`
having written no body bytes; a peer reading declared size `-1`
interprets it as not-found and performs no body read — both in the
client's `download_file` (where the comparison happens at `size_t`
width) and in the coordinator's `receive_file_from_server`. -/
theorem notfound_sentinel_shortcircuit :
    send_file_model none = { controlMsg := "-1", bodyChunks := [], result := -1 } ∧
    client_download_bodyReads ['-', '1'] = none ∧
    smain_backend_fetch_check ['-', '1'] = none := by
  refine ⟨by decide, by decide, by decide⟩

/-! ## C6: upload failure reporting -/

/-- C6 (code bug): the backend's `process_ufile` discards
`receive_file`'s return value and returns `1` unconditionally, so even
when directory creation fails (`receive_file` returns `-1`) the server
replies with the success message `"File received by server"`.  The claim
(and `process_ufile`'s own documentation of its return value) requires
the failure to be reported instead. -/
theorem upload_failure_reply_bug :
    receive_file_ret false true = -1 ∧
    spdf_process_ufile_ret false true = 1 ∧
    spdf_ufile_reply (spdf_process_ufile_ret false true) =
      "File received by server" := by
  refine ⟨by decide, by decide, by decide⟩

/-! ## C7: archive coordination -/

/-- C7: For an archive request of type `txt` or `pdf` the coordinator
signals the matching backend with the bare `"dtar"` message, waits (the
backend's reply plus the fixed settle sleep), and then streams the
backend-built archive `./tar/<type>.tar` to the client itself; for type
`c` it builds `./tar/c.tar` locally from `./smain`.  In all three cases
the single client-bound archive stream is a coordinator action, and the
backend's own `dtar` handling streams nothing to any client. -/
theorem archive_coordination :
    smain_process_dtar "txt" =
      [DtarAction.signalBackend BackendRole.stext "dtar",
       DtarAction.recvBackendReply BackendRole.stext,
       DtarAction.sleepSettle,
       DtarAction.streamTarToClient "./tar/txt.tar"] ∧
    smain_process_dtar "pdf" =
      [DtarAction.signalBackend BackendRole.spdf "dtar",
       DtarAction.recvBackendReply BackendRole.spdf,
       DtarAction.sleepSettle,
       DtarAction.streamTarToClient "./tar/pdf.tar"] ∧
    smain_process_dtar "c" =
      [DtarAction.createLocalTar "./tar/c.tar" "./smain",
       DtarAction.sleepSettle,
       DtarAction.streamTarToClient "./tar/c.tar"] ∧
    (smain_process_dtar "txt").countP isClientStream = 1 ∧
    (smain_process_dtar "pdf").countP isClientStream = 1 ∧
    (smain_process_dtar "c").countP isClientStream = 1 ∧
    spdf_process_dtar_actions.countP isClientStream = 0 := by
  refine ⟨by decide, by decide, by decide, by decide, by decide, by decide, by decide⟩

/-! ## C8: session termination on peer disconnect -/

/-- C8 (code bug): `receive_with_acknowledgement` never returns a
negative value (it returns `0` on both failure paths and the received
byte count otherwise), so the coordinator's `prcclient` loop — which
breaks only on a negative result — can never exit; on peer disconnect
(`recv` returning `0`) it keeps looping and processing empty commands.
The backend's `prcclient` additionally breaks on a `0` result and does
terminate on disconnect, which is the behavior the claim describes. -/
theorem disconnect_loop_behavior :
    (∀ (recvRes : Int) (ackOk : Bool),
      smain_prcclient_breaks (receive_with_acknowledgement_ret recvRes ackOk) = false) ∧
    spdf_prcclient_breaks (receive_with_acknowledgement_ret 0 true) = true := by
  constructor
  · intro recvRes ackOk
    unfold receive_with_acknowledgement_ret smain_prcclient_breaks
    by_cases h1 : recvRes < 0
    · simp [h1]
    · by_cases h2 : ackOk = false <;> simp [h1, h2]
  · decide

/-! ## C9: failure cases of the control exchange -/

/-- C9 counterexample: with the write succeeding, the peer closed before
responding (`recv` returns `0`), and a 4-byte message such as `"dtar"`,
`send_with_acknowledgement` returns `4` — a successful exchange by the
callers' `<= 0` failure test — even though the claim requires the
peer-closed case to be reported as a failure. -/
theorem exchange_peer_closed_success :
    send_with_acknowledgement_ret true 0 4 = 4 ∧
    ¬ send_with_acknowledgement_ret true 0 4 ≤ 0 := by
  refine ⟨by decide, by decide⟩

/-- C9 (amended): for a nonempty message, the exchange primitive returns
a failure result (a non-positive value, as its callers test) in exactly
two cases — the write fails or the underlying read returns an error; a
peer that closed before responding (a read of `0` bytes) is reported as
a successful exchange of the message's length. -/
theorem exchange_failure_cases (sendOk : Bool) (recvRes : Int) (msgLen : Nat)
    (h : 0 < msgLen) :
    (send_with_acknowledgement_ret sendOk recvRes msgLen ≤ 0 ↔
      sendOk = false ∨ recvRes < 0) := by
  unfold send_with_acknowledgement_ret
  by_cases h1 : sendOk = false
  · simp [h1]
  · by_cases h2 : recvRes < 0
    · simp [h1, h2]
    · simp [h1, h2]
      omega

/-- Witness for `exchange_failure_cases` at a failed read of a 4-byte
message. -/
theorem exchange_failure_cases_witness :
    (send_with_acknowledgement_ret true (-1) 4 ≤ 0 ↔
      true = false ∨ (-1 : Int) < 0) :=
  exchange_failure_cases true (-1) 4 (by decide)

/-! ## C10: listing a missing directory -/

/-- C10: Listing a directory path whose `opendir` fails is
observationally identical to listing an existing empty directory: the
recursive walk silently contributes nothing (as it also does for an
unopenable subdirectory entry), so both cases produce the same declared
size `"0"` reply with return `-1`, and no distinct directory-not-found
error is ever surfaced to the peer. -/
theorem missing_dir_eq_empty_dir (dirPath : List Char) :
    spdf_display_files_outcome none dirPath = ("0", -1) ∧
    spdf_display_files_outcome none dirPath =
      spdf_display_files_outcome (some []) dirPath ∧
    traverse_entry dirPath dirPath (FsEntry.dirFail ['s', 'u', 'b']) = [] := by
  refine ⟨?_, ?_, ?_⟩
  all_goals simp [spdf_display_files_outcome, traverse_entries, traverse_entry]
